import Mathlib

/-!
Shallow embedding of the homey-openrouter integration (TypeScript sources:
the OpenRouter device class, the OpenRouter driver class with model cache,
autocomplete matching and pairing). JavaScript optional fields are embedded
as `Option`, JavaScript string falsiness (`undefined` or `""`) is made
explicit, network transport outcomes are passed in as explicit values, and
each operation additionally reports the HTTP request it issued (`none`
meaning no network call was attempted).
-/

deriving instance DecidableEq for Except

namespace OpenRouter

/-- JavaScript `s || d` for strings: the empty string is falsy. -/
def jsOrStr (s d : String) : String :=
  if s = "" then d else s

/-- JavaScript `s || d` where `s` may also be `undefined` (embedded as `none`). -/
def jsOrOptStr (s : Option String) (d : String) : String :=
  match s with
  | none => d
  | some s => jsOrStr s d

/-- JavaScript truthiness test `!s` for a possibly-undefined string. -/
def jsFalsyOptStr (s : Option String) : Bool :=
  match s with
  | none => true
  | some s => s = ""

/-- JavaScript `String.prototype.trim`: remove leading and trailing
whitespace, modelled on the character list. -/
def jsTrim (s : String) : String :=
  String.mk (((s.toList.dropWhile Char.isWhitespace).reverse.dropWhile
    Char.isWhitespace).reverse)

/-- HTTP `response.ok`: status in the 200-299 range. -/
def statusOk (status : Nat) : Bool :=
  200 ≤ status && status < 300

/-- Message role, from the `ChatMessage` interface of the device class. -/
inductive Role where
  | system
  | user
  | assistant
deriving DecidableEq, Repr

/-- One chat message, from the `ChatMessage` interface of the device class. -/
structure ChatMessage where
  role : Role
  content : String
deriving DecidableEq, Repr

/-- Body of the chat-completion POST: `{model, messages, max_tokens: 500}`. -/
structure RequestBody where
  model : String
  messages : List ChatMessage
  max_tokens : Nat
deriving DecidableEq, Repr

/-- An outgoing HTTP request as built by the sources: URL, method, header
list, and the JSON body for POST requests (`none` for the GET endpoints). -/
structure HttpRequest where
  url : String
  method : String
  headers : List (String × String)
  body : Option RequestBody
deriving DecidableEq, Repr

/-- The GET request issued against the models endpoint (only an
`Authorization` bearer header, no body). -/
def modelsRequest (apiKey : String) : HttpRequest where
  url := "https://openrouter.ai/api/v1/models"
  method := "GET"
  headers := [("Authorization", "Bearer " ++ apiKey)]
  body := none

/-- The GET request issued against the credits endpoint (only an
`Authorization` bearer header, no body). -/
def creditsRequest (apiKey : String) : HttpRequest where
  url := "https://openrouter.ai/api/v1/credits"
  method := "GET"
  headers := [("Authorization", "Bearer " ++ apiKey)]
  body := none

/-- The POST request issued by `generateText`: bearer auth, content type and
the two identification headers, with body `{model, messages, max_tokens: 500}`. -/
def chatCompletionRequest (apiKey model : String) (messages : List ChatMessage) : HttpRequest where
  url := "https://openrouter.ai/api/v1/chat/completions"
  method := "POST"
  headers :=
    [("Authorization", "Bearer " ++ apiKey),
     ("Content-Type", "application/json"),
     ("HTTP-Referer", "https://homey.app"),
     ("X-Title", "Homey OpenRouter")]
  body := some { model := model, messages := messages, max_tokens := 500 }

/-- The `error?: {message?: string}` field of a response payload. -/
structure ApiErrorObj where
  message : Option String
deriving DecidableEq, Repr

/-- The `message?: {content?: string}` field of one choice. -/
structure ChoiceMessage where
  content : Option String
deriving DecidableEq, Repr

/-- One element of the `choices?` array of the chat-completion payload. -/
structure Choice where
  message : Option ChoiceMessage
deriving DecidableEq, Repr

/-- The `OpenRouterResponse` payload interface of the device class. -/
structure OpenRouterResponse where
  choices : Option (List Choice)
  error : Option ApiErrorObj
deriving DecidableEq, Repr

/-- The optional chain `data.choices?.[0]?.message?.content`. -/
def extractContent (r : OpenRouterResponse) : Option String :=
  match r.choices with
  | none => none
  | some cs =>
    match cs.head? with
    | none => none
    | some c =>
      match c.message with
      | none => none
      | some m => m.content

/-- Classified failures thrown by `generateText`. -/
inductive GenError where
  | noKeyConfigured
  | networkError
  | httpError (status : Nat)
  | apiError (message : String)
  | emptyResponse
deriving DecidableEq, Repr

/-- Outcome of the single fetch attempted by `generateText`: a transport
failure, or an HTTP response with a status and a parsed payload. -/
inductive ChatFetchOutcome where
  | networkFailure
  | response (status : Nat) (payload : OpenRouterResponse)
deriving DecidableEq, Repr

/-- Message-list construction of `generateText`: push a `system` message only
when `systemPrompt` is truthy (present and non-empty), then always push the
`user` message carrying the prompt. -/
def buildMessages (prompt : String) (systemPrompt : Option String) : List ChatMessage :=
  (match systemPrompt with
   | some sp => if sp = "" then [] else [{ role := Role.system, content := sp }]
   | none => []) ++ [{ role := Role.user, content := prompt }]

/-- Handling of a parsed HTTP-success payload in `generateText`: first
`if (data.error) throw new Error(data.error.message || 'Unknown API error')`,
then `const content = data.choices?.[0]?.message?.content;
if (!content) throw new Error('No response content received')`, and finally
`return content.trim()`. -/
def handleSuccessPayload (payload : OpenRouterResponse) : Except GenError String :=
  match payload.error with
  | some e => Except.error (GenError.apiError (jsOrOptStr e.message "Unknown API error"))
  | none =>
    match extractContent payload with
    | none => Except.error GenError.emptyResponse
    | some content =>
      if content = "" then Except.error GenError.emptyResponse
      else Except.ok (jsTrim content)

/-- The `generateText` method of the device class. Parameters beyond the
method's own arguments: `apiKey` and `defaultModel` are the device fields,
and `outcome` stands for the transport result of the single fetch. Returns
the result together with the request issued (`none` when no network call
was attempted). -/
def generateText (apiKey defaultModel prompt : String)
    (model systemPrompt : Option String)
    (outcome : ChatFetchOutcome) : Except GenError String × Option HttpRequest :=
  if apiKey = "" then (Except.error GenError.noKeyConfigured, none)
  else
    let selectedModel := jsOrOptStr model defaultModel
    let messages := buildMessages prompt systemPrompt
    let req := chatCompletionRequest apiKey selectedModel messages
    match outcome with
    | ChatFetchOutcome.networkFailure => (Except.error GenError.networkError, some req)
    | ChatFetchOutcome.response status payload =>
      if statusOk status then (handleSuccessPayload payload, some req)
      else (Except.error (GenError.httpError status), some req)

/-- Boolean prefix test on character lists, modelling the prefix check that
underlies `String.prototype.includes` and `String.prototype.startsWith`. -/
def isPrefixB : List Char → List Char → Bool
  | [], _ => true
  | _ :: _, [] => false
  | a :: as, b :: bs => a == b && isPrefixB as bs

/-- Boolean substring search on character lists. -/
def containsSub (pat : List Char) : List Char → Bool
  | [] => pat.isEmpty
  | c :: cs => isPrefixB pat (c :: cs) || containsSub pat cs

/-- JavaScript `s.includes(pat)`: substring containment. -/
def jsIncludes (s pat : String) : Bool :=
  containsSub pat.toList s.toList

/-- JavaScript `s.startsWith(pre)`. -/
def jsStartsWith (s pre : String) : Bool :=
  isPrefixB pre.toList s.toList

/-- JavaScript `s.toLowerCase()`, modelled character by character. -/
def jsToLower (s : String) : String :=
  String.mk (s.toList.map Char.toLower)

/-- Split a character list on a separator character, JavaScript
`String.prototype.split` style (keeps empty segments). -/
def splitOnChar (sep : Char) : List Char → List (List Char)
  | [] => [[]]
  | c :: cs =>
    match splitOnChar sep cs with
    | [] => []
    | h :: t => if c = sep then [] :: h :: t else (c :: h) :: t

/-- JavaScript `id.split('/')`. -/
def jsSplitSlash (s : String) : List String :=
  (splitOnChar '/' s.toList).map String.mk

/-- One catalog entry, from the `OpenRouterModel` interface of the driver. -/
structure OpenRouterModel where
  id : String
  name : String
deriving DecidableEq, Repr

/-- The fixed `FEATURED_MODELS` list of the driver. -/
def FEATURED_MODELS : List String :=
  ["google/gemini-3-flash-preview",
   "google/gemini-2.0-flash-exp:free",
   "openai/gpt-4.1-mini",
   "openai/gpt-4.1",
   "anthropic/claude-opus-4.5",
   "deepseek/deepseek-v3.2",
   "meta-llama/llama-4-maverick",
   "mistralai/mistral-large-2512"]

/-- The driver's `getDefaultModels`: each featured id paired with
`id.split('/')[1] || id` as its display name. -/
def getDefaultModels : List OpenRouterModel :=
  FEATURED_MODELS.map (fun id => { id := id, name := jsOrOptStr (jsSplitSlash id)[1]? id })

/-- JavaScript `Array.prototype.indexOf` over the featured list: index of the
first occurrence, `-1` when absent. -/
def jsIndexOf (l : List String) (s : String) : Int :=
  match l.findIdx? (· == s) with
  | some n => (n : Int)
  | none => -1

/-- The filter predicate of `getModelAutocomplete`:
`model.id.toLowerCase().includes(lowerQuery) ||
 model.name.toLowerCase().includes(lowerQuery)`. -/
def matchesQuery (lowerQuery : String) (m : OpenRouterModel) : Bool :=
  jsIncludes (jsToLower m.id) lowerQuery || jsIncludes (jsToLower m.name) lowerQuery

/-- The kept set of `getModelAutocomplete`: the catalog filtered by the
lower-cased query. -/
def keptModels (query : String) (models : List OpenRouterModel) : List OpenRouterModel :=
  models.filter (matchesQuery (jsToLower query))

/-- The sort comparator of `getModelAutocomplete`; `cmp` stands for the
locale-aware `String.prototype.localeCompare` of the runtime. -/
def modelComparator (cmp : String → String → Int) (a b : OpenRouterModel) : Int :=
  let aFeatured := FEATURED_MODELS.contains a.id
  let bFeatured := FEATURED_MODELS.contains b.id
  if aFeatured && !bFeatured then -1
  else if !aFeatured && bFeatured then 1
  else if aFeatured && bFeatured then
    jsIndexOf FEATURED_MODELS a.id - jsIndexOf FEATURED_MODELS b.id
  else cmp a.name b.name

/-- Non-positive comparator outcome, the order used by the stable sort. -/
def modelLe (cmp : String → String → Int) (a b : OpenRouterModel) : Bool :=
  decide (modelComparator cmp a b ≤ 0)

/-- One entry of the autocomplete result: `{id, name, description: model.id}`. -/
structure AutocompleteEntry where
  id : String
  name : String
  description : String
deriving DecidableEq, Repr

/-- The stable sort `filtered.sort(comparator)` of the driver, modelled by
insertion sort (stable, and agreeing with every stable sort whenever the
comparator induces a total preorder). -/
def jsSort (cmp : String → String → Int) (l : List OpenRouterModel) : List OpenRouterModel :=
  List.insertionSort (fun a b => modelLe cmp a b = true) l

/-- The driver's `getModelAutocomplete` on an already-fetched catalog:
filter by the lower-cased query, stable-sort with the featured-first
comparator, truncate to 50, and map to presentation triples. -/
def getModelAutocomplete (cmp : String → String → Int) (query : String)
    (models : List OpenRouterModel) : List AutocompleteEntry :=
  let filtered := keptModels query models
  let sorted := jsSort cmp filtered
  (sorted.take 50).map (fun m => { id := m.id, name := m.name, description := m.id })

/-- Ranking relation the autocomplete output must satisfy pairwise: a
featured entry never follows a non-featured one, featured entries are in
ascending featured-list position, and non-featured entries are ordered by
the locale comparison of their display names. -/
def entryRel (cmp : String → String → Int) (e₁ e₂ : AutocompleteEntry) : Prop :=
  (FEATURED_MODELS.contains e₂.id = true → FEATURED_MODELS.contains e₁.id = true) ∧
  (FEATURED_MODELS.contains e₁.id = true → FEATURED_MODELS.contains e₂.id = true →
    jsIndexOf FEATURED_MODELS e₁.id ≤ jsIndexOf FEATURED_MODELS e₂.id) ∧
  (FEATURED_MODELS.contains e₁.id = false → FEATURED_MODELS.contains e₂.id = false →
    cmp e₁.name e₂.name ≤ 0)

/-- The autocomplete result is ordered when every pair of entries, in
result order, satisfies the ranking relation. -/
def autocompleteOrdered (cmp : String → String → Int) (res : List AutocompleteEntry) : Prop :=
  List.Pairwise (entryRel cmp) res

/-- The driver's mutable cache fields `modelsCache` and `modelsCacheTime`. -/
structure DriverState where
  modelsCache : List OpenRouterModel
  modelsCacheTime : Int
deriving DecidableEq, Repr

/-- The driver's `CACHE_TTL`: five minutes in milliseconds. -/
def CACHE_TTL : Int := 5 * 60 * 1000

/-- Outcome of the fetch attempted by `fetchModels`: transport failure, or a
response with a status and payload; `data = none` embeds a payload whose
`data` field is missing (the `.map` then throws and the catch returns the
defaults). -/
inductive ModelsFetchOutcome where
  | networkFailure
  | response (status : Nat) (data : Option (List OpenRouterModel))
deriving DecidableEq, Repr

/-- The driver's `fetchModels`. `now` stands for `Date.now()` and `apiKey`
for `device.getSetting('apiKey')` (possibly `undefined`). Returns the model
list handed to the caller, the updated driver state, and the request issued
(`none` when no network call was attempted). -/
def fetchModels (st : DriverState) (now : Int) (apiKey : Option String)
    (outcome : ModelsFetchOutcome) : List OpenRouterModel × DriverState × Option HttpRequest :=
  if st.modelsCache.length > 0 ∧ now - st.modelsCacheTime < CACHE_TTL then
    (st.modelsCache, st, none)
  else
    match apiKey with
    | none => (getDefaultModels, st, none)
    | some key =>
      if key = "" then (getDefaultModels, st, none)
      else
        let req := modelsRequest key
        match outcome with
        | ModelsFetchOutcome.networkFailure => (getDefaultModels, st, some req)
        | ModelsFetchOutcome.response status data =>
          if statusOk status then
            match data with
            | none => (getDefaultModels, st, some req)
            | some ms =>
              let newCache := ms.map (fun m => { id := m.id, name := m.name })
              (newCache, { modelsCache := newCache, modelsCacheTime := now }, some req)
          else (getDefaultModels, st, some req)

/-- The `data?: {total_credits, total_usage}` field of the credits payload;
amounts are modelled as integers. -/
structure CreditsData where
  total_credits : Int
  total_usage : Int
deriving DecidableEq, Repr

/-- The `CreditsResponse` payload interface of the device class. -/
structure CreditsResponsePayload where
  data : Option CreditsData
deriving DecidableEq, Repr

/-- Outcome of the fetch attempted by `checkCredits`. -/
inductive CreditsFetchOutcome where
  | networkFailure
  | response (status : Nat) (payload : CreditsResponsePayload)
deriving DecidableEq, Repr

/-- The device's `checkCredits`: returns the value published to the
`openrouter_credits` capability (`none` when nothing is published) and the
request issued (`none` when no network call was attempted). -/
def checkCredits (apiKey : String) (outcome : CreditsFetchOutcome) :
    Option Int × Option HttpRequest :=
  if apiKey = "" then (none, none)
  else
    let req := creditsRequest apiKey
    match outcome with
    | CreditsFetchOutcome.networkFailure => (none, some req)
    | CreditsFetchOutcome.response status payload =>
      if statusOk status then
        match payload.data with
        | none => (none, some req)
        | some d => (some (d.total_credits - d.total_usage), some req)
      else (none, some req)

/-- Effect of one `checkCredits` run on the stored capability value: a
published value replaces it, publishing nothing leaves it untouched. -/
def updateCreditsCapability (prev published : Option Int) : Option Int :=
  match published with
  | some v => some v
  | none => prev

/-- The pairing session data of `onPair`. -/
structure PairData where
  apiKey : String
  defaultModel : String
deriving DecidableEq, Repr

/-- Result of the `login` handler of `onPair`. -/
inductive LoginResult where
  | invalidKey
  | validationFailed
  | success
deriving DecidableEq, Repr

/-- The `login` handler registered in `onPair`: trim the submitted username
(the API key) and password (the optional default model), reject keys that
are empty or lack the `sk-or-` prefix before any network call, then
validate the key remotely (`validateOutcome` stands for the result of
`validateApiKey`). Returns the outcome, the updated pairing data, and
whether a network request was made. -/
def loginHandler (pairData : PairData) (username password : Option String)
    (validateOutcome : Bool) : LoginResult × PairData × Bool :=
  let apiKey := username.map jsTrim
  let defaultModel := jsOrOptStr (password.map jsTrim) "google/gemini-3-flash-preview"
  match apiKey with
  | none => (LoginResult.invalidKey, pairData, false)
  | some k =>
    if k = "" || !(jsStartsWith k "sk-or-") then (LoginResult.invalidKey, pairData, false)
    else if validateOutcome then
      (LoginResult.success, { apiKey := k, defaultModel := defaultModel }, true)
    else (LoginResult.validationFailed, pairData, true)

/-- Failure discriminator for a model-catalog refresh: no usable API key,
transport failure, a non-success HTTP status, or a payload whose `data`
field is missing. -/
def refreshFails (apiKey : Option String) (o : ModelsFetchOutcome) : Bool :=
  jsFalsyOptStr apiKey ||
    match o with
    | ModelsFetchOutcome.networkFailure => true
    | ModelsFetchOutcome.response status data => !statusOk status || data.isNone

/-- Failure discriminator for the balance probe: missing API key, transport
failure, non-success HTTP status, or a success payload without the `data`
field. -/
def creditsFails (apiKey : String) (o : CreditsFetchOutcome) : Bool :=
  decide (apiKey = "") ||
    match o with
    | CreditsFetchOutcome.networkFailure => true
    | CreditsFetchOutcome.response status payload => !statusOk status || payload.data.isNone

/-- Rejection condition of the pairing login handler: the trimmed submitted
API key is missing, empty, or lacks the `sk-or-` prefix. -/
def loginKeyRejected (username : Option String) : Bool :=
  match username.map jsTrim with
  | none => true
  | some k => decide (k = "") || !(jsStartsWith k "sk-or-")

/-- Whether a request carries both identification headers sent by the
chat-completion call (`HTTP-Referer` and `X-Title`). -/
def sendsIdHeaders (r : HttpRequest) : Bool :=
  r.headers.contains ("HTTP-Referer", "https://homey.app") &&
    r.headers.contains ("X-Title", "Homey OpenRouter")

/-- Whether a request carries a body with the fixed `max_tokens` bound 500. -/
def attachesMaxTokens500 (r : HttpRequest) : Bool :=
  match r.body with
  | some b => b.max_tokens == 500
  | none => false

example : (generateText "k" "dm" "Hi" (some "m") (some "Be terse")
    (ChatFetchOutcome.response 200
      { choices := some [{ message := some { content := some " Hello! " } }],
        error := none })).1 = Except.ok "Hello!" := by decide

example : (generateText "k" "dm" "p" none none
    (ChatFetchOutcome.response 200
      { choices := none,
        error := some { message := some "insufficient_quota" } })).1 =
    Except.error (GenError.apiError "insufficient_quota") := by decide

example : getDefaultModels =
    [⟨"google/gemini-3-flash-preview", "gemini-3-flash-preview"⟩,
     ⟨"google/gemini-2.0-flash-exp:free", "gemini-2.0-flash-exp:free"⟩,
     ⟨"openai/gpt-4.1-mini", "gpt-4.1-mini"⟩,
     ⟨"openai/gpt-4.1", "gpt-4.1"⟩,
     ⟨"anthropic/claude-opus-4.5", "claude-opus-4.5"⟩,
     ⟨"deepseek/deepseek-v3.2", "deepseek-v3.2"⟩,
     ⟨"meta-llama/llama-4-maverick", "llama-4-maverick"⟩,
     ⟨"mistralai/mistral-large-2512", "mistral-large-2512"⟩] := by decide

example : getModelAutocomplete (fun _ _ => 0) ""
    [⟨"acme/foo", "foo"⟩, ⟨"openai/gpt-4.1", "gpt-4.1"⟩] =
    [⟨"openai/gpt-4.1", "gpt-4.1", "openai/gpt-4.1"⟩,
     ⟨"acme/foo", "foo", "acme/foo"⟩] := by decide

example : jsIncludes "OpenAI/GPT" "" = true := by decide

theorem isPrefixB_iff : ∀ (p s : List Char), isPrefixB p s = true ↔ ∃ t, p ++ t = s
  | [], s => by simp [isPrefixB]
  | _ :: _, [] => by simp [isPrefixB]
  | a :: as, b :: bs => by
    simp only [isPrefixB, Bool.and_eq_true, beq_iff_eq]
    constructor
    · rintro ⟨rfl, h⟩
      obtain ⟨t, rfl⟩ := (isPrefixB_iff as bs).1 h
      exact ⟨t, rfl⟩
    · rintro ⟨t, h⟩
      injection h with h1 h2
      subst h1
      exact ⟨rfl, (isPrefixB_iff as bs).2 ⟨t, h2⟩⟩

theorem containsSub_iff (p : List Char) :
    ∀ (s : List Char), containsSub p s = true ↔ ∃ l r, l ++ p ++ r = s
  | [] => by
    simp only [containsSub, List.isEmpty_iff]
    constructor
    · rintro rfl
      exact ⟨[], [], rfl⟩
    · rintro ⟨l, r, h⟩
      exact ((by simpa using congrArg List.length h :
        l = [] ∧ p = [] ∧ r = [])).2.1
  | c :: cs => by
    simp only [containsSub, Bool.or_eq_true, isPrefixB_iff, containsSub_iff p cs]
    constructor
    · rintro (⟨t, ht⟩ | ⟨l, r, h⟩)
      · exact ⟨[], t, ht⟩
      · exact ⟨c :: l, r, by simp [← h]⟩
    · rintro ⟨l, r, h⟩
      match l, h with
      | [], h => exact Or.inl ⟨r, by simpa using h⟩
      | x :: l', h =>
        injection h with h1 h2
        exact Or.inr ⟨l', r, h2⟩

theorem containsSub_nil (s : List Char) : containsSub [] s = true :=
  (containsSub_iff [] s).2 ⟨[], s, by simp⟩

/-- C3: the kept set of the autocomplete matcher is a subset of the catalog;
a model is kept iff its lower-cased identifier or display name contains the
lower-cased query as a substring; an empty query keeps every model. -/
theorem keptModels_subset_and_match (query : String) (models : List OpenRouterModel) :
    (∀ m ∈ keptModels query models, m ∈ models) ∧
    (∀ m, m ∈ keptModels query models ↔ m ∈ models ∧
      ((∃ l r, l ++ (jsToLower query).toList ++ r = (jsToLower m.id).toList) ∨
       (∃ l r, l ++ (jsToLower query).toList ++ r = (jsToLower m.name).toList))) ∧
    (query = "" → keptModels query models = models) := by
  refine ⟨?_, ?_, ?_⟩
  · intro m hm
    exact (List.mem_filter.1 hm).1
  · intro m
    rw [keptModels, List.mem_filter]
    simp only [matchesQuery, Bool.or_eq_true, jsIncludes, containsSub_iff]
  · rintro rfl
    rw [keptModels, List.filter_eq_self]
    intro m _
    simp only [matchesQuery, jsIncludes, Bool.or_eq_true]
    exact Or.inl (by simpa [jsToLower] using containsSub_nil (jsToLower m.id).toList)

theorem keptModels_subset_and_match_witness :
    (∀ m ∈ keptModels "" [⟨"openai/gpt-4.1", "gpt-4.1"⟩],
      m ∈ [(⟨"openai/gpt-4.1", "gpt-4.1"⟩ : OpenRouterModel)]) ∧
    (∀ m, m ∈ keptModels "" [⟨"openai/gpt-4.1", "gpt-4.1"⟩] ↔
      m ∈ [(⟨"openai/gpt-4.1", "gpt-4.1"⟩ : OpenRouterModel)] ∧
      ((∃ l r, l ++ (jsToLower "").toList ++ r = (jsToLower m.id).toList) ∨
       (∃ l r, l ++ (jsToLower "").toList ++ r = (jsToLower m.name).toList))) ∧
    ((("" : String) = "") →
      keptModels "" [⟨"openai/gpt-4.1", "gpt-4.1"⟩] =
        [(⟨"openai/gpt-4.1", "gpt-4.1"⟩ : OpenRouterModel)]) :=
  keptModels_subset_and_match "" [⟨"openai/gpt-4.1", "gpt-4.1"⟩]

/-- C6: `generateText` with an empty configured API key fails with the
no-key-configured error and issues no request at all. -/
theorem generateText_no_key (defaultModel prompt : String)
    (model systemPrompt : Option String) (outcome : ChatFetchOutcome) :
    generateText "" defaultModel prompt model systemPrompt outcome =
      (Except.error GenError.noKeyConfigured, none) := rfl

theorem generateText_request_eq (apiKey defaultModel prompt : String)
    (model systemPrompt : Option String) (outcome : ChatFetchOutcome)
    (h : apiKey ≠ "") :
    (generateText apiKey defaultModel prompt model systemPrompt outcome).2 =
      some (chatCompletionRequest apiKey (jsOrOptStr model defaultModel)
        (buildMessages prompt systemPrompt)) := by
  simp only [generateText, if_neg h]
  cases outcome with
  | networkFailure => rfl
  | response status payload =>
    by_cases hs : statusOk status <;> simp [hs]

/-- C7: whenever `generateText` issues a request, that request carries the
message sequence built from the prompt and optional system prompt; the
sequence is a single `user` message when the system prompt is absent or
empty, and a `system` message followed by the `user` message otherwise. -/
theorem generateText_message_sequence (apiKey defaultModel prompt : String)
    (model systemPrompt : Option String) (outcome : ChatFetchOutcome)
    (h : apiKey ≠ "") :
    (generateText apiKey defaultModel prompt model systemPrompt outcome).2 =
      some (chatCompletionRequest apiKey (jsOrOptStr model defaultModel)
        (buildMessages prompt systemPrompt)) ∧
    ((systemPrompt = none ∨ systemPrompt = some "") →
      buildMessages prompt systemPrompt = [{ role := Role.user, content := prompt }]) ∧
    (∀ sp, systemPrompt = some sp → sp ≠ "" →
      buildMessages prompt systemPrompt =
        [{ role := Role.system, content := sp }, { role := Role.user, content := prompt }]) := by
  refine ⟨generateText_request_eq apiKey defaultModel prompt model systemPrompt outcome h,
    ?_, ?_⟩
  · rintro (rfl | rfl) <;> simp [buildMessages]
  · rintro sp rfl hsp
    simp [buildMessages, hsp]

theorem generateText_message_sequence_witness :
    (generateText "sk-or-key" "dm" "Hi" none (some "Be terse")
        (ChatFetchOutcome.response 200 { choices := none, error := none })).2 =
      some (chatCompletionRequest "sk-or-key" (jsOrOptStr none "dm")
        (buildMessages "Hi" (some "Be terse"))) ∧
    (((some "Be terse" : Option String) = none ∨ (some "Be terse" : Option String) = some "") →
      buildMessages "Hi" (some "Be terse") = [{ role := Role.user, content := "Hi" }]) ∧
    (∀ sp, (some "Be terse" : Option String) = some sp → sp ≠ "" →
      buildMessages "Hi" (some "Be terse") =
        [{ role := Role.system, content := sp }, { role := Role.user, content := "Hi" }]) :=
  generateText_message_sequence "sk-or-key" "dm" "Hi" none (some "Be terse")
    (ChatFetchOutcome.response 200 { choices := none, error := none }) (by decide)

/-- C4: with a non-empty cache younger than the TTL, `fetchModels` returns
the cached sequence verbatim, issues no request and leaves the state
unchanged; a second call within the TTL returns the identical sequence. -/
theorem fetchModels_cache_hit (st : DriverState) (now now₂ : Int)
    (k k₂ : Option String) (o o₂ : ModelsFetchOutcome)
    (h1 : st.modelsCache.length > 0)
    (h2 : now - st.modelsCacheTime < CACHE_TTL) :
    fetchModels st now k o = (st.modelsCache, st, none) ∧
    (now₂ - st.modelsCacheTime < CACHE_TTL →
      (fetchModels (fetchModels st now k o).2.1 now₂ k₂ o₂).1 =
        (fetchModels st now k o).1) := by
  have e1 : fetchModels st now k o = (st.modelsCache, st, none) := by
    rw [fetchModels.eq_def, if_pos ⟨h1, h2⟩]
  refine ⟨e1, fun h3 => ?_⟩
  rw [e1]
  rw [fetchModels.eq_def, if_pos ⟨h1, h3⟩]

theorem fetchModels_cache_hit_witness :
    fetchModels (⟨[⟨"a/b", "b"⟩], 0⟩ : DriverState) 1 none ModelsFetchOutcome.networkFailure =
      ([⟨"a/b", "b"⟩], (⟨[⟨"a/b", "b"⟩], 0⟩ : DriverState), none) ∧
    ((2 : Int) - (⟨[⟨"a/b", "b"⟩], 0⟩ : DriverState).modelsCacheTime < CACHE_TTL →
      (fetchModels (fetchModels (⟨[⟨"a/b", "b"⟩], 0⟩ : DriverState) 1 none
          ModelsFetchOutcome.networkFailure).2.1 2 none ModelsFetchOutcome.networkFailure).1 =
        (fetchModels (⟨[⟨"a/b", "b"⟩], 0⟩ : DriverState) 1 none
          ModelsFetchOutcome.networkFailure).1) :=
  fetchModels_cache_hit (⟨[⟨"a/b", "b"⟩], 0⟩ : DriverState) 1 2 none none
    ModelsFetchOutcome.networkFailure ModelsFetchOutcome.networkFailure
    (by decide) (by decide)

/-- C5: every failed refresh of the model catalog returns the static
featured-model fallback (ids exactly the featured list, names derived by
splitting on the slash) and leaves both cache fields unchanged. -/
theorem fetchModels_failure_fallback (st : DriverState) (now : Int)
    (k : Option String) (o : ModelsFetchOutcome)
    (hmiss : ¬(st.modelsCache.length > 0 ∧ now - st.modelsCacheTime < CACHE_TTL))
    (hfail : refreshFails k o = true) :
    (fetchModels st now k o).1 = getDefaultModels ∧
    (fetchModels st now k o).2.1 = st ∧
    (fetchModels st now k o).1.map (fun m => m.id) = FEATURED_MODELS := by
  have hdef : getDefaultModels.map (fun m => m.id) = FEATURED_MODELS := by decide
  cases k with
  | none => simp [fetchModels, if_neg hmiss, hdef]
  | some key =>
    by_cases hk : key = ""
    · simp [fetchModels, if_neg hmiss, hk, hdef]
    · cases o with
      | networkFailure => simp [fetchModels, if_neg hmiss, hk, hdef]
      | response status data =>
        by_cases hs : statusOk status
        · have hd : data = none := by
            cases data with
            | none => rfl
            | some ms => simp [refreshFails, jsFalsyOptStr, hk, hs] at hfail
          subst hd
          simp [fetchModels, if_neg hmiss, hk, hs, hdef]
        · simp [fetchModels, if_neg hmiss, hk, hs, hdef]

theorem fetchModels_failure_fallback_witness :
    (fetchModels (⟨[], 0⟩ : DriverState) 0 (some "sk-or-key")
        ModelsFetchOutcome.networkFailure).1 = getDefaultModels ∧
    (fetchModels (⟨[], 0⟩ : DriverState) 0 (some "sk-or-key")
        ModelsFetchOutcome.networkFailure).2.1 = (⟨[], 0⟩ : DriverState) ∧
    (fetchModels (⟨[], 0⟩ : DriverState) 0 (some "sk-or-key")
        ModelsFetchOutcome.networkFailure).1.map (fun m => m.id) = FEATURED_MODELS :=
  fetchModels_failure_fallback (⟨[], 0⟩ : DriverState) 0
    (some "sk-or-key") ModelsFetchOutcome.networkFailure (by decide) (by decide)

/-- C9: every failed balance probe publishes nothing, leaving the previously
published credits value unchanged; only a successful read publishes
`total_credits - total_usage`. -/
theorem checkCredits_publish_spec (apiKey : String) (o : CreditsFetchOutcome) :
    (creditsFails apiKey o = true →
      (checkCredits apiKey o).1 = none ∧
      ∀ prev, updateCreditsCapability prev (checkCredits apiKey o).1 = prev) ∧
    (∀ status d, apiKey ≠ "" → statusOk status = true →
      o = CreditsFetchOutcome.response status { data := some d } →
      (checkCredits apiKey o).1 = some (d.total_credits - d.total_usage)) := by
  constructor
  · intro hfail
    have hnone : (checkCredits apiKey o).1 = none := by
      by_cases hk : apiKey = ""
      · simp [checkCredits, hk]
      · cases o with
        | networkFailure => simp [checkCredits, hk]
        | response status payload =>
          by_cases hs : statusOk status
          · have hd : payload.data = none := by
              cases hdata : payload.data with
              | none => rfl
              | some d => simp [creditsFails, hk, hs, hdata] at hfail
            simp [checkCredits, hk, hs, hd]
          · simp [checkCredits, hk, hs]
    exact ⟨hnone, fun prev => by simp [updateCreditsCapability, hnone]⟩
  · rintro status d hk hs rfl
    simp [checkCredits, hk, hs]

theorem checkCredits_publish_spec_witness :
    updateCreditsCapability (some 5)
      (checkCredits "sk-or-key" CreditsFetchOutcome.networkFailure).1 = some 5 ∧
    (checkCredits "sk-or-key"
        (CreditsFetchOutcome.response 200
          { data := some { total_credits := 7, total_usage := 2 } })).1 = some 5 := by
  constructor
  · exact ((checkCredits_publish_spec "sk-or-key"
      CreditsFetchOutcome.networkFailure).1 (by decide)).2 (some 5)
  · exact (checkCredits_publish_spec "sk-or-key"
      (CreditsFetchOutcome.response 200
        { data := some { total_credits := 7, total_usage := 2 } })).2
      200 { total_credits := 7, total_usage := 2 } (by decide) (by decide) rfl

/-- C10: a pairing login submission whose trimmed API key is empty or does
not start with `sk-or-` fails with the invalid-key error, makes no network
request, and leaves the pending pairing credentials unchanged. -/
theorem loginHandler_invalid_key (pairData : PairData)
    (username password : Option String) (validateOutcome : Bool)
    (h : loginKeyRejected username = true) :
    loginHandler pairData username password validateOutcome =
      (LoginResult.invalidKey, pairData, false) := by
  cases username with
  | none => rfl
  | some u =>
    have hcond : (decide (jsTrim u = "") || !(jsStartsWith (jsTrim u) "sk-or-")) = true := by
      simpa [loginKeyRejected] using h
    simp [loginHandler, hcond]

theorem loginHandler_invalid_key_witness :
    loginHandler { apiKey := "", defaultModel := "google/gemini-3-flash-preview" }
      (some " not-a-key ") (some "m") true =
      (LoginResult.invalidKey,
       { apiKey := "", defaultModel := "google/gemini-3-flash-preview" }, false) :=
  loginHandler_invalid_key
    { apiKey := "", defaultModel := "google/gemini-3-flash-preview" }
    (some " not-a-key ") (some "m") true (by decide)

/-- C1 counterexample: an HTTP-200 payload whose error object has no
message while extractable content "hi" is present is not returned as
success; the call fails with the fallback ApiError message instead of
returning the content. -/
theorem generateText_error_without_message_cex :
    (generateText "sk-or-key" "dm" "p" none none
        (ChatFetchOutcome.response 200
          (⟨some [⟨some ⟨some "hi"⟩⟩], some ⟨none⟩⟩ : OpenRouterResponse))).1 =
      Except.error (GenError.apiError "Unknown API error") ∧
    (generateText "sk-or-key" "dm" "p" none none
        (ChatFetchOutcome.response 200
          (⟨some [⟨some ⟨some "hi"⟩⟩], some ⟨none⟩⟩ : OpenRouterResponse))).1 ≠
      Except.ok "hi" := by decide

/-- C1 (amended): on an HTTP-success response, a payload containing an error
object makes the call fail with an ApiError carrying its message (or the
fallback message when the message is missing or empty) and is never treated
as success; with no error object, missing or empty extractable content
fails with EmptyResponse, and otherwise the trimmed content is returned. -/
theorem generateText_success_payload_classification
    (apiKey defaultModel prompt : String) (model systemPrompt : Option String)
    (status : Nat) (payload : OpenRouterResponse)
    (hkey : apiKey ≠ "") (hok : statusOk status = true) :
    (∀ e, payload.error = some e →
      (generateText apiKey defaultModel prompt model systemPrompt
        (ChatFetchOutcome.response status payload)).1 =
      Except.error (GenError.apiError (jsOrOptStr e.message "Unknown API error"))) ∧
    (payload.error = none →
      (extractContent payload = none ∨ extractContent payload = some "") →
      (generateText apiKey defaultModel prompt model systemPrompt
        (ChatFetchOutcome.response status payload)).1 =
      Except.error GenError.emptyResponse) ∧
    (∀ c, payload.error = none → extractContent payload = some c → c ≠ "" →
      (generateText apiKey defaultModel prompt model systemPrompt
        (ChatFetchOutcome.response status payload)).1 = Except.ok (jsTrim c)) := by
  have hgen : (generateText apiKey defaultModel prompt model systemPrompt
      (ChatFetchOutcome.response status payload)).1 = handleSuccessPayload payload := by
    simp [generateText, hkey, hok]
  refine ⟨?_, ?_, ?_⟩
  · intro e he
    rw [hgen]
    simp [handleSuccessPayload, he]
  · rintro herr (hc | hc) <;> rw [hgen] <;> simp [handleSuccessPayload, herr, hc]
  · intro c herr hc hcne
    rw [hgen]
    simp [handleSuccessPayload, herr, hc, hcne]

theorem generateText_success_payload_classification_witness :
    (∀ e, (⟨some [⟨some ⟨some " Hello! "⟩⟩], none⟩ : OpenRouterResponse).error = some e →
      (generateText "sk-or-key" "dm" "Hi" none none
        (ChatFetchOutcome.response 200
          (⟨some [⟨some ⟨some " Hello! "⟩⟩], none⟩ : OpenRouterResponse))).1 =
      Except.error (GenError.apiError (jsOrOptStr e.message "Unknown API error"))) ∧
    ((⟨some [⟨some ⟨some " Hello! "⟩⟩], none⟩ : OpenRouterResponse).error = none →
      (extractContent (⟨some [⟨some ⟨some " Hello! "⟩⟩], none⟩ : OpenRouterResponse) = none ∨
       extractContent (⟨some [⟨some ⟨some " Hello! "⟩⟩], none⟩ : OpenRouterResponse) = some "") →
      (generateText "sk-or-key" "dm" "Hi" none none
        (ChatFetchOutcome.response 200
          (⟨some [⟨some ⟨some " Hello! "⟩⟩], none⟩ : OpenRouterResponse))).1 =
      Except.error GenError.emptyResponse) ∧
    (∀ c, (⟨some [⟨some ⟨some " Hello! "⟩⟩], none⟩ : OpenRouterResponse).error = none →
      extractContent (⟨some [⟨some ⟨some " Hello! "⟩⟩], none⟩ : OpenRouterResponse) = some c →
      c ≠ "" →
      (generateText "sk-or-key" "dm" "Hi" none none
        (ChatFetchOutcome.response 200
          (⟨some [⟨some ⟨some " Hello! "⟩⟩], none⟩ : OpenRouterResponse))).1 =
      Except.ok (jsTrim c)) :=
  generateText_success_payload_classification "sk-or-key" "dm" "Hi" none none 200
    (⟨some [⟨some ⟨some " Hello! "⟩⟩], none⟩ : OpenRouterResponse)
    (by decide) (by decide)

/-- C8 counterexample: the credits call issues its request with neither the
identification headers nor any `max_tokens` bound, refuting the claim for
the get-credits remote call. -/
theorem creditsRequest_lacks_id_headers_cex :
    (checkCredits "sk-or-key" CreditsFetchOutcome.networkFailure).2 =
      some (creditsRequest "sk-or-key") ∧
    sendsIdHeaders (creditsRequest "sk-or-key") = false ∧
    attachesMaxTokens500 (creditsRequest "sk-or-key") = false := by decide

/-- C8 (amended): only the chat-completion request attaches the fixed
`max_tokens` bound of 500 and the identification headers; the model-list
and credits requests carry only the Authorization bearer header and no
body. -/
theorem outgoing_requests_headers (apiKey defaultModel prompt : String)
    (model systemPrompt : Option String) (co : ChatFetchOutcome)
    (st : DriverState) (now : Int) (mk : Option String) (mo : ModelsFetchOutcome)
    (ck : String) (cro : CreditsFetchOutcome) :
    (∀ r, (generateText apiKey defaultModel prompt model systemPrompt co).2 = some r →
      ("HTTP-Referer", "https://homey.app") ∈ r.headers ∧
      ("X-Title", "Homey OpenRouter") ∈ r.headers ∧
      ("Authorization", "Bearer " ++ apiKey) ∈ r.headers ∧
      ∃ b, r.body = some b ∧ b.max_tokens = 500) ∧
    (∀ r, (fetchModels st now mk mo).2.2 = some r →
      ∃ key, mk = some key ∧ r = modelsRequest key ∧
        r.headers = [("Authorization", "Bearer " ++ key)] ∧ r.body = none) ∧
    (∀ r, (checkCredits ck cro).2 = some r →
      r = creditsRequest ck ∧
      r.headers = [("Authorization", "Bearer " ++ ck)] ∧ r.body = none) := by
  refine ⟨?_, ?_, ?_⟩
  · intro r hr
    by_cases hk : apiKey = ""
    · simp [generateText, hk] at hr
    · have hreq : r = chatCompletionRequest apiKey (jsOrOptStr model defaultModel)
          (buildMessages prompt systemPrompt) := by
        rw [generateText_request_eq apiKey defaultModel prompt model systemPrompt co hk] at hr
        exact (Option.some_inj.1 hr).symm
      subst hreq
      refine ⟨by simp [chatCompletionRequest], by simp [chatCompletionRequest],
        by simp [chatCompletionRequest], ?_⟩
      exact ⟨_, rfl, rfl⟩
  · intro r hr
    by_cases hc : st.modelsCache.length > 0 ∧ now - st.modelsCacheTime < CACHE_TTL
    · rw [fetchModels.eq_def, if_pos hc] at hr
      simp at hr
    · cases mk with
      | none =>
        rw [fetchModels.eq_def, if_neg hc] at hr
        simp at hr
      | some key =>
        by_cases hk : key = ""
        · rw [fetchModels.eq_def, if_neg hc] at hr
          simp [hk] at hr
        · have hreq : r = modelsRequest key := by
            rw [fetchModels.eq_def, if_neg hc] at hr
            cases mo with
            | networkFailure =>
              simp [hk] at hr
              exact hr.symm
            | response status data =>
              by_cases hs : statusOk status
              · cases data with
                | none =>
                  simp [hk, hs] at hr
                  exact hr.symm
                | some ms =>
                  simp [hk, hs] at hr
                  exact hr.symm
              · simp [hk, hs] at hr
                exact hr.symm
          exact ⟨key, rfl, hreq, by rw [hreq]; rfl, by rw [hreq]; rfl⟩
  · intro r hr
    by_cases hk : ck = ""
    · simp [checkCredits, hk] at hr
    · have hreq : r = creditsRequest ck := by
        cases cro with
        | networkFailure =>
          simp [checkCredits, hk] at hr
          exact hr.symm
        | response status payload =>
          by_cases hs : statusOk status
          · cases hd : payload.data with
            | none =>
              simp [checkCredits, hk, hs, hd] at hr
              exact hr.symm
            | some d =>
              simp [checkCredits, hk, hs, hd] at hr
              exact hr.symm
          · simp [checkCredits, hk, hs] at hr
            exact hr.symm
      exact ⟨hreq, by rw [hreq]; rfl, by rw [hreq]; rfl⟩

theorem outgoing_requests_headers_witness :
    (∀ r, (generateText "sk-or-key" "dm" "Hi" none none
        ChatFetchOutcome.networkFailure).2 = some r →
      ("HTTP-Referer", "https://homey.app") ∈ r.headers ∧
      ("X-Title", "Homey OpenRouter") ∈ r.headers ∧
      ("Authorization", "Bearer " ++ "sk-or-key") ∈ r.headers ∧
      ∃ b, r.body = some b ∧ b.max_tokens = 500) ∧
    (∀ r, (fetchModels (⟨[], 0⟩ : DriverState) 0 (some "sk-or-key")
        ModelsFetchOutcome.networkFailure).2.2 = some r →
      ∃ key, (some "sk-or-key" : Option String) = some key ∧ r = modelsRequest key ∧
        r.headers = [("Authorization", "Bearer " ++ key)] ∧ r.body = none) ∧
    (∀ r, (checkCredits "sk-or-key" CreditsFetchOutcome.networkFailure).2 = some r →
      r = creditsRequest "sk-or-key" ∧
      r.headers = [("Authorization", "Bearer " ++ "sk-or-key")] ∧ r.body = none) :=
  outgoing_requests_headers "sk-or-key" "dm" "Hi" none none
    ChatFetchOutcome.networkFailure (⟨[], 0⟩ : DriverState) 0 (some "sk-or-key")
    ModelsFetchOutcome.networkFailure "sk-or-key" CreditsFetchOutcome.networkFailure

theorem modelLe_total (cmp : String → String → Int)
    (htotal : ∀ a b, cmp a b ≤ 0 ∨ cmp b a ≤ 0) :
    ∀ a b, modelLe cmp a b = true ∨ modelLe cmp b a = true := by
  intro a b
  simp only [modelLe, decide_eq_true_eq, modelComparator]
  cases hfa : FEATURED_MODELS.contains a.id <;>
    cases hfb : FEATURED_MODELS.contains b.id <;> simp
  all_goals first
  | omega
  | exact htotal a.name b.name

theorem modelLe_trans (cmp : String → String → Int)
    (htrans : ∀ a b c, cmp a b ≤ 0 → cmp b c ≤ 0 → cmp a c ≤ 0) :
    ∀ a b c, modelLe cmp a b = true → modelLe cmp b c = true →
      modelLe cmp a c = true := by
  intro a b c hab hbc
  simp only [modelLe, decide_eq_true_eq, modelComparator] at hab hbc ⊢
  cases hfa : FEATURED_MODELS.contains a.id <;>
    cases hfb : FEATURED_MODELS.contains b.id <;>
    cases hfc : FEATURED_MODELS.contains c.id <;>
    simp_all
  all_goals first
  | omega
  | exact htrans a.name b.name c.name hab hbc

theorem modelLe_imp (cmp : String → String → Int) (a b : OpenRouterModel)
    (h : modelLe cmp a b = true) :
    (FEATURED_MODELS.contains b.id = true → FEATURED_MODELS.contains a.id = true) ∧
    (FEATURED_MODELS.contains a.id = true → FEATURED_MODELS.contains b.id = true →
      jsIndexOf FEATURED_MODELS a.id ≤ jsIndexOf FEATURED_MODELS b.id) ∧
    (FEATURED_MODELS.contains a.id = false → FEATURED_MODELS.contains b.id = false →
      cmp a.name b.name ≤ 0) := by
  simp only [modelLe, decide_eq_true_eq, modelComparator] at h
  cases hfa : FEATURED_MODELS.contains a.id <;>
    cases hfb : FEATURED_MODELS.contains b.id <;> simp_all

theorem entryRel_of_modelLe (cmp : String → String → Int) (a b : OpenRouterModel)
    (h : modelLe cmp a b = true) :
    entryRel cmp { id := a.id, name := a.name, description := a.id }
      { id := b.id, name := b.name, description := b.id } :=
  modelLe_imp cmp a b h

/-- C2: the autocomplete result is pairwise ordered (featured before
non-featured, featured by ascending featured-list position, non-featured by
the locale comparison of display names), is the 50-entry truncation of the
sorted kept set, and maps each kept model to the triple
`{id, name, description = id}`. -/
theorem getModelAutocomplete_ranking (cmp : String → String → Int) (query : String)
    (models : List OpenRouterModel)
    (htrans : ∀ a b c, cmp a b ≤ 0 → cmp b c ≤ 0 → cmp a c ≤ 0)
    (htotal : ∀ a b, cmp a b ≤ 0 ∨ cmp b a ≤ 0) :
    autocompleteOrdered cmp (getModelAutocomplete cmp query models) ∧
    (getModelAutocomplete cmp query models).length =
      min 50 (keptModels query models).length ∧
    ∀ e ∈ getModelAutocomplete cmp query models,
      e.description = e.id ∧
      ∃ m ∈ keptModels query models, m.id = e.id ∧ m.name = e.name := by
  haveI : IsTotal OpenRouterModel (fun a b => modelLe cmp a b = true) :=
    ⟨modelLe_total cmp htotal⟩
  haveI : IsTrans OpenRouterModel (fun a b => modelLe cmp a b = true) :=
    ⟨modelLe_trans cmp htrans⟩
  have hsorted : List.Pairwise (fun a b => modelLe cmp a b = true)
      (jsSort cmp (keptModels query models)) :=
    List.sorted_insertionSort _ _
  refine ⟨?_, ?_, ?_⟩
  · have htake : List.Pairwise (fun a b => modelLe cmp a b = true)
        ((jsSort cmp (keptModels query models)).take 50) :=
      List.Pairwise.sublist (List.take_sublist _ _) hsorted
    exact List.Pairwise.map _ (fun a b hab => entryRel_of_modelLe cmp a b hab) htake
  · simp [getModelAutocomplete, jsSort]
  · intro e he
    simp only [getModelAutocomplete, List.mem_map] at he
    obtain ⟨m, hm, rfl⟩ := he
    refine ⟨rfl, m, ?_, rfl, rfl⟩
    have hms : m ∈ jsSort cmp (keptModels query models) := List.take_subset 50 _ hm
    simpa [jsSort] using hms

theorem getModelAutocomplete_ranking_witness :
    autocompleteOrdered (fun _ _ => (0 : Int))
      (getModelAutocomplete (fun _ _ => (0 : Int)) ""
        [⟨"openai/gpt-4.1", "gpt-4.1"⟩, ⟨"acme/foo", "foo"⟩]) ∧
    (getModelAutocomplete (fun _ _ => (0 : Int)) ""
        [⟨"openai/gpt-4.1", "gpt-4.1"⟩, ⟨"acme/foo", "foo"⟩]).length =
      min 50 (keptModels "" [⟨"openai/gpt-4.1", "gpt-4.1"⟩, ⟨"acme/foo", "foo"⟩]).length ∧
    ∀ e ∈ getModelAutocomplete (fun _ _ => (0 : Int)) ""
        [⟨"openai/gpt-4.1", "gpt-4.1"⟩, ⟨"acme/foo", "foo"⟩],
      e.description = e.id ∧
      ∃ m ∈ keptModels "" [⟨"openai/gpt-4.1", "gpt-4.1"⟩, ⟨"acme/foo", "foo"⟩],
        m.id = e.id ∧ m.name = e.name :=
  getModelAutocomplete_ranking (fun _ _ => (0 : Int)) ""
    [⟨"openai/gpt-4.1", "gpt-4.1"⟩, ⟨"acme/foo", "foo"⟩]
    (fun _ _ _ _ _ => le_refl 0) (fun _ _ => Or.inl (le_refl 0))

end OpenRouter
